import Mathlib

/-!
Shallow embedding of the Viam Gemini vision-service module
(`williamjhyland/viam-gemini-vision-service`).

The repository contains two near-duplicate variants of the same adapter:
- `src/gemini/src/models/vision.py` (namespace `GA` below), and
- `src/src/models/vision.py` (namespace `GB` below).

External collaborators (the camera component and the Gemini model client)
are modelled as oracle functions; every outbound call the adapter makes is
recorded in an explicit call trace so that call-count and fail-fast claims
can be stated.  Machine-level details of the Viam SDK (protobuf plumbing,
logging, the event loop) are outside the adapter and are not modelled;
`from_dm_from_extra(extra)` is modelled by the boolean `fromDM` it computes.
-/

namespace GeminiVision

/-- JPEG frame bytes (`ViamImage.data`). -/
abbrev Image := List Nat

/-- A part of a Gemini `Content`: either image bytes with a declared mime
type (`Part.from_data(data=..., mime_type=...)`) or a text part
(`Content.Part(text=...)`). -/
inductive GPart where
  | image (data : Image) (mime : String)
  | text (s : String)
deriving DecidableEq, Repr

/-- One item of the `contents` list handed to `generate_content`.  Variant A
and `get_description` wrap parts in `Content(parts=[...])`; variant B's
`get_classifications` passes a PIL image object and a bare prompt string. -/
inductive ReqItem where
  | content (parts : List GPart)
  | pilImage (data : Image)
  | rawText (s : String)
deriving DecidableEq, Repr

/-- The `contents` argument of one `generate_content` call. -/
abbrev Request := List ReqItem

/-- An outbound call the adapter issues to a collaborator. -/
inductive CallEvent where
  | cameraFetch (cameraName : String) (mime : String)
  | modelCall (model : String) (req : Request)
deriving DecidableEq, Repr

/-- Whether a trace event is an outbound model request. -/
def CallEvent.isModelCall : CallEvent → Bool
  | .modelCall _ _ => true
  | _ => false

/-- Number of outbound model requests recorded in a trace. -/
def modelCalls (tr : List CallEvent) : Nat :=
  tr.countP CallEvent.isModelCall

/-- Errors that can cross the adapter boundary.  `configError` is the
`ValueError` raised by `validate_config`; `dependencyNotFound` is the
`KeyError` from `self._deps[cam_rn]` (the spec calls it
DependencyNotFoundError); `cameraError` / `modelCallError` carry an
exception message raised by the camera or the Gemini client unchanged;
`noCaptureToStore` is `NoCaptureToStoreError` (the spec's
NoDataToStoreError). -/
inductive VisionError where
  | configError (key : String)
  | dependencyNotFound (name : String)
  | cameraError (msg : String)
  | modelCallError (msg : String)
  | noCaptureToStore
  | attributeError (msg : String)
deriving DecidableEq, Repr

/-- Camera collaborator: `get_image(mime_type)` returning frame bytes or
raising. -/
abbrev Camera := String → Except String Image

/-- Gemini collaborator: `client.models.generate_content(model, contents)`
returning the response text or raising. -/
abbrev Gemini := String → Request → Except String String

/-- One `(label, confidence)` classification.  Variant A constructs it as
`Classification(label=..., confidence=1.0)` and variant B as
`Classification(confidence=1.0, class_name=...)`; both keyword spellings
denote the single label field of the spec's ClassificationResult. -/
structure Classification where
  label : String
  confidence : ℚ
deriving DecidableEq, Repr

/-- Models `CaptureAllResult()` from the Viam SDK: every field defaults to unset
(`None`).  Detections and object point clouds are never constructed by this
module, so their element type is `Unit`. -/
structure CaptureAllResult where
  image : Option Image := none
  classifications : Option (List Classification) := none
  detections : Option (List Unit) := none
  objects : Option (List Unit) := none
deriving DecidableEq, Repr

/-- Python's `str.strip()`: remove leading and trailing whitespace from the
model's response text. -/
def strip (s : String) : String :=
  ⟨((s.data.dropWhile Char.isWhitespace).reverse.dropWhile
      Char.isWhitespace).reverse⟩

/-- The raw attribute map `config.attributes.fields`; every attribute this
module uses is a string value. -/
abbrev Attrs := List (String × String)

/-- Models `key in config.attributes.fields`. -/
def hasKey (attrs : Attrs) (k : String) : Bool :=
  attrs.any (fun p => p.1 = k)

/-- Models `fields[k].string_value` / `struct_to_dict(...)[k]` for a present key. -/
def getAttr (attrs : Attrs) (k : String) : Option String :=
  (attrs.find? (fun p => p.1 = k)).map (fun p => p.2)

/-- The first required key missing from the map, scanning the variant's
fixed key tuple in order — the key the `for key in (...)` loop raises on. -/
def firstMissing (keys : List String) (attrs : Attrs) : Option String :=
  keys.find? (fun k => !hasKey attrs k)

/-- Resolved dependency map `deps : Mapping[ResourceName, ResourceBase]`,
keyed by camera name (`Camera.get_resource_name` is injective in the
name). -/
abbrev Deps := List (String × Camera)

/-- Models `self._deps[cam_rn]` as an `Option` (a missing key raises). -/
def lookupDep (deps : Deps) (name : String) : Option Camera :=
  (deps.find? (fun p => p.1 = name)).map (fun p => p.2)

end GeminiVision

namespace GeminiVision.GA

open GeminiVision

/-- The key tuple of variant A's `validate_config` loop, in source order. -/
def requiredKeys : List String := ["model_id", "api_key", "camera_name"]

/-- Models `Vision.validate_config` of `src/gemini/src/models/vision.py`: raise a
`ValueError` naming the first missing required key, else return `[]`. -/
def validate_config (attrs : Attrs) : Except VisionError (List String) :=
  match firstMissing requiredKeys attrs with
  | some k => .error (.configError k)
  | none => .ok []

/-- The configuration state `reconfigure` writes onto the instance:
`api_key`, `model_id`, `camera_name`, `_deps`, and the Gemini client bound
to the API key. -/
structure VisionState where
  api_key : String
  model_id : String
  camera_name : String
  deps : Deps
  client_api_key : String

/-- Models `Vision.reconfigure`: read `api_key`, `model_id`, `camera_name` from
`struct_to_dict(config.attributes)` (a missing key raises `KeyError`),
store them with the dependency map, and build a fresh client from the API
key.  Every field of the state is assigned from the new arguments; the
prior state `s` contributes nothing. -/
def reconfigure (_s : Option VisionState) (attrs : Attrs) (deps : Deps) :
    Option VisionState :=
  match getAttr attrs "api_key", getAttr attrs "model_id",
      getAttr attrs "camera_name" with
  | some a, some m, some c =>
      some { api_key := a, model_id := m, camera_name := c, deps := deps,
             client_api_key := a }
  | _, _, _ => none

/-- Models `Vision._gemini`: issue one `generate_content` call against
`self.model_id`, return the response text stripped; on any exception, log
and re-raise the same exception. -/
def geminiCall (s : VisionState) (g : Gemini) (req : Request) :
    Except VisionError String × List CallEvent :=
  match g s.model_id req with
  | .ok t => (.ok (strip t), [.modelCall s.model_id req])
  | .error e => (.error (.modelCallError e), [.modelCall s.model_id req])

/-- The fixed prompt of variant A's `get_classifications`. -/
def classifyPrompt : String :=
  "Describe this image in one concise English sentence."

/-- The `contents` list variant A's `get_classifications` builds: the image
bytes declared `image/jpeg`, then the fixed prompt as a text part. -/
def classifyRequest (image : Image) : Request :=
  [.content [.image image "image/jpeg"], .content [.text classifyPrompt]]

/-- Models `Vision.get_classifications`: build the image+prompt request, call
`_gemini`, and wrap the resulting description as the single classification
`Classification(label=description, confidence=1.0)`.  The `count` argument
is accepted and never read. -/
def get_classifications (s : VisionState) (g : Gemini) (image : Image)
    (_count : Nat) : Except VisionError (List Classification) × List CallEvent :=
  match geminiCall s g (classifyRequest image) with
  | (.ok d, tr) => (.ok [{ label := d, confidence := 1 }], tr)
  | (.error e, tr) => (.error e, tr)

/-- Models `Vision.capture_all_from_camera` of variant A: resolve the camera from
`self._deps` (raises before any outbound call if absent), fetch one JPEG
frame, set `result.image` only when `return_image`, always classify the
frame and clear the list when `return_classifications` is false, set
detections and objects to `[]` unconditionally, then apply the
data-manager gating: when `from_dm_from_extra(extra)` holds (the `fromDM`
argument) and no classification in the result has a truthy label, raise
`NoCaptureToStoreError`. -/
def capture_all_from_camera (s : VisionState) (g : Gemini)
    (camera_name : String) (return_image return_classifications
    _return_detections _return_object_point_clouds : Bool) (fromDM : Bool) :
    Except VisionError CaptureAllResult × List CallEvent :=
  match lookupDep s.deps camera_name with
  | none => (.error (.dependencyNotFound camera_name), [])
  | some cam =>
    match cam "image/jpeg" with
    | .error e => (.error (.cameraError e), [.cameraFetch camera_name "image/jpeg"])
    | .ok frame =>
      match get_classifications s g frame 1 with
      | (.error e, tr) =>
          (.error e, .cameraFetch camera_name "image/jpeg" :: tr)
      | (.ok cls, tr) =>
          let clsOut := if return_classifications then cls else []
          let result : CaptureAllResult :=
            { image := if return_image then some frame else none,
              classifications := some clsOut,
              detections := some [], objects := some [] }
          let trace := .cameraFetch camera_name "image/jpeg" :: tr
          if fromDM ∧ ¬ clsOut.any (fun c => c.label ≠ "") then
            (.error .noCaptureToStore, trace)
          else
            (.ok result, trace)

/-- The `contents` list `get_description` builds: image bytes declared
`image/jpeg`, then the prompt as a text part. -/
def descriptionRequest (image : Image) (prompt : String) : Request :=
  [.content [.image image "image/jpeg"], .content [.text prompt]]

/-- Models `Vision.get_description`: build the image+prompt request and return
`_gemini`'s stripped text. -/
def get_description (s : VisionState) (g : Gemini) (image : Image)
    (prompt : String) : Except VisionError String × List CallEvent :=
  geminiCall s g (descriptionRequest image prompt)

/-- Models `Vision.get_classifications_from_camera`: delegate to
`capture_all_from_camera(cam, return_image=True,
return_classifications=True)` (no `extra`, so the data-manager flag is
false) and return the classification list. -/
def get_classifications_from_camera (s : VisionState) (g : Gemini)
    (cam : String) (_count : Nat) :
    Except VisionError (Option (List Classification)) × List CallEvent :=
  match capture_all_from_camera s g cam true true false false false with
  | (.ok res, tr) => (.ok res.classifications, tr)
  | (.error e, tr) => (.error e, tr)

/-- Models `Vision.get_description_from_camera`: call
`capture_all_from_camera(cam, return_image=True)` to obtain a frame, then
`get_description` on `frame.image`.  Accessing `.data` on an absent image
would raise an `AttributeError`; that branch is unreachable because
`return_image=True`. -/
def get_description_from_camera (s : VisionState) (g : Gemini)
    (cam : String) (prompt : String) :
    Except VisionError String × List CallEvent :=
  match capture_all_from_camera s g cam true false false false false with
  | (.error e, tr) => (.error e, tr)
  | (.ok res, tr) =>
    match res.image with
    | some img =>
        match get_description s g img prompt with
        | (r, tr2) => (r, tr ++ tr2)
    | none => (.error (.attributeError "NoneType has no attribute data"), tr)

end GeminiVision.GA

namespace GeminiVision.GB

open GeminiVision

/-- The key tuple of variant B's `validate_config` loop, in source order. -/
def requiredKeys : List String := ["api_key", "camera_name", "model", "prompt"]

/-- Models `Vision.validate_config` of `src/src/models/vision.py`: raise a
`ValueError` naming the first missing required key, else return the
one-element dependency list `[fields["camera_name"].string_value]`. -/
def validate_config (attrs : Attrs) : Except VisionError (List String) :=
  match firstMissing requiredKeys attrs with
  | some k => .error (.configError k)
  | none => .ok [(getAttr attrs "camera_name").getD ""]

/-- The configuration state variant B's `reconfigure` writes: `api_key`,
`camera_name`, `model`, `prompt`, `_deps`, and the Gemini client bound to
the API key. -/
structure VisionState where
  api_key : String
  camera_name : String
  model : String
  prompt : String
  deps : Deps
  client_api_key : String

/-- Variant B's `Vision.reconfigure`: read `api_key`, `camera_name`,
`model`, `prompt` from the attribute dict (a missing key raises
`KeyError`), store them with the dependency map, and build a fresh client
from the API key.  Every field is assigned from the new arguments. -/
def reconfigure (_s : Option VisionState) (attrs : Attrs) (deps : Deps) :
    Option VisionState :=
  match getAttr attrs "api_key", getAttr attrs "camera_name",
      getAttr attrs "model", getAttr attrs "prompt" with
  | some a, some c, some m, some p =>
      some { api_key := a, camera_name := c, model := m, prompt := p,
             deps := deps, client_api_key := a }
  | _, _, _, _ => none

/-- Variant B's `Vision._gemini`: one `generate_content` call against
`self.model` (async client), returning the stripped text; an exception
propagates unchanged (no handler at all in this variant). -/
def geminiCall (s : VisionState) (g : Gemini) (req : Request) :
    Except VisionError String × List CallEvent :=
  match g s.model req with
  | .ok t => (.ok (strip t), [.modelCall s.model req])
  | .error e => (.error (.modelCallError e), [.modelCall s.model req])

/-- The `contents` list variant B's `get_classifications` passes to
`generate_content`: the PIL-decoded frame, then the configured prompt as a
bare string. -/
def classifyRequest (s : VisionState) (image : Image) : Request :=
  [.pilImage image, .rawText s.prompt]

/-- Variant B's `Vision.get_classifications`: decode the JPEG bytes via
PIL, call `generate_content(model, [pil_img, self.prompt])` directly,
strip the response text and wrap it as the single classification
`Classification(confidence=1.0, class_name=description)`.  The `count`
argument is accepted and never read. -/
def get_classifications (s : VisionState) (g : Gemini) (image : Image)
    (_count : Nat) : Except VisionError (List Classification) × List CallEvent :=
  match g s.model (classifyRequest s image) with
  | .ok t =>
      (.ok [{ label := strip t, confidence := 1 }],
       [.modelCall s.model (classifyRequest s image)])
  | .error e =>
      (.error (.modelCallError e), [.modelCall s.model (classifyRequest s image)])

/-- Variant B's `Vision.capture_all_from_camera`: resolve the camera from
`self._deps` (raises before any outbound call if absent), fetch one JPEG
frame, then unconditionally set `result.image = frame` and
`result.classifications = await self.get_classifications(frame, 1)`.  The
four boolean flags and `extra` are accepted and never read; detections and
objects keep their `None` defaults. -/
def capture_all_from_camera (s : VisionState) (g : Gemini)
    (camera_name : String) (_return_image _return_classifications
    _return_detections _return_object_point_clouds : Bool) (_fromDM : Bool) :
    Except VisionError CaptureAllResult × List CallEvent :=
  match lookupDep s.deps camera_name with
  | none => (.error (.dependencyNotFound camera_name), [])
  | some cam =>
    match cam "image/jpeg" with
    | .error e => (.error (.cameraError e), [.cameraFetch camera_name "image/jpeg"])
    | .ok frame =>
      match get_classifications s g frame 1 with
      | (.error e, tr) =>
          (.error e, .cameraFetch camera_name "image/jpeg" :: tr)
      | (.ok cls, tr) =>
          (.ok { image := some frame, classifications := some cls,
                 detections := none, objects := none },
           .cameraFetch camera_name "image/jpeg" :: tr)

/-- Variant B's `Vision.get_description`: identical to variant A's — build
the image+prompt `Content` request and return `_gemini`'s stripped
text. -/
def get_description (s : VisionState) (g : Gemini) (image : Image)
    (prompt : String) : Except VisionError String × List CallEvent :=
  geminiCall s g (GA.descriptionRequest image prompt)

/-- Variant B's `Vision.get_classifications_from_camera`: delegate to
`capture_all_from_camera(cam, return_image=True,
return_classifications=True)` and return the classification list. -/
def get_classifications_from_camera (s : VisionState) (g : Gemini)
    (cam : String) (_count : Nat) :
    Except VisionError (Option (List Classification)) × List CallEvent :=
  match capture_all_from_camera s g cam true true false false false with
  | (.ok res, tr) => (.ok res.classifications, tr)
  | (.error e, tr) => (.error e, tr)

/-- Variant B's `Vision.get_description_from_camera`: call
`capture_all_from_camera(cam, return_image=True)` for a frame, then
`get_description` on `frame.image`. -/
def get_description_from_camera (s : VisionState) (g : Gemini)
    (cam : String) (prompt : String) :
    Except VisionError String × List CallEvent :=
  match capture_all_from_camera s g cam true false false false false with
  | (.error e, tr) => (.error e, tr)
  | (.ok res, tr) =>
    match res.image with
    | some img =>
        match get_description s g img prompt with
        | (r, tr2) => (r, tr ++ tr2)
    | none => (.error (.attributeError "NoneType has no attribute data"), tr)

end GeminiVision.GB

namespace GeminiVision

/-- If every required key is present, the first-missing scan finds none. -/
theorem firstMissing_eq_none {keys : List String} {attrs : Attrs}
    (h : ∀ k ∈ keys, hasKey attrs k = true) :
    firstMissing keys attrs = none := by
  refine List.find?_eq_none.mpr (fun k hk => ?_)
  simp [h k hk]

/-- Shape of variant A's `capture_all_from_camera` when the dependency
resolves, the camera frame fetch succeeds, and the model call returns
`t`, with no data-manager gating. -/
theorem GA.capture_okA {s : GA.VisionState} {g : Gemini} {cam : String}
    {camf : Camera} {frame : Image} {t : String}
    (ri rc rd ro : Bool)
    (hdep : lookupDep s.deps cam = some camf)
    (hcam : camf "image/jpeg" = .ok frame)
    (hg : g s.model_id (GA.classifyRequest frame) = .ok t) :
    GA.capture_all_from_camera s g cam ri rc rd ro false =
      (.ok { image := if ri then some frame else none,
             classifications :=
               some (if rc then [{ label := strip t, confidence := 1 }] else []),
             detections := some [], objects := some [] },
       [.cameraFetch cam "image/jpeg",
        .modelCall s.model_id (GA.classifyRequest frame)]) := by
  unfold GA.capture_all_from_camera GA.get_classifications GA.geminiCall
  simp [hdep, hcam, hg]

/-- Variant A's `capture_all_from_camera` performs exactly one camera fetch
followed by exactly one model call whenever the camera frame is obtained,
for every flag combination and every model-call outcome. -/
theorem GA.capture_traceA {s : GA.VisionState} {g : Gemini} {cam : String}
    {camf : Camera} {frame : Image} (ri rc rd ro fdm : Bool)
    (hdep : lookupDep s.deps cam = some camf)
    (hcam : camf "image/jpeg" = .ok frame) :
    (GA.capture_all_from_camera s g cam ri rc rd ro fdm).2 =
      [.cameraFetch cam "image/jpeg",
       .modelCall s.model_id (GA.classifyRequest frame)] := by
  unfold GA.capture_all_from_camera GA.get_classifications GA.geminiCall
  simp only [hdep, hcam]
  cases hg : g s.model_id (GA.classifyRequest frame) <;> simp
  split <;> rfl

/-- Shape of variant B's `capture_all_from_camera` when the dependency
resolves, the camera frame fetch succeeds, and the model call returns
`t`: the flags are ignored and both image and classifications are
populated. -/
theorem GB.capture_okB {s : GB.VisionState} {g : Gemini} {cam : String}
    {camf : Camera} {frame : Image} {t : String}
    (ri rc rd ro fdm : Bool)
    (hdep : lookupDep s.deps cam = some camf)
    (hcam : camf "image/jpeg" = .ok frame)
    (hg : g s.model (GB.classifyRequest s frame) = .ok t) :
    GB.capture_all_from_camera s g cam ri rc rd ro fdm =
      (.ok { image := some frame,
             classifications := some [{ label := strip t, confidence := 1 }],
             detections := none, objects := none },
       [.cameraFetch cam "image/jpeg",
        .modelCall s.model (GB.classifyRequest s frame)]) := by
  unfold GB.capture_all_from_camera GB.get_classifications
  simp [hdep, hcam, hg]

/-- Variant B's `capture_all_from_camera` performs exactly one camera fetch
followed by exactly one model call whenever the camera frame is
obtained. -/
theorem GB.capture_traceB {s : GB.VisionState} {g : Gemini} {cam : String}
    {camf : Camera} {frame : Image} (ri rc rd ro fdm : Bool)
    (hdep : lookupDep s.deps cam = some camf)
    (hcam : camf "image/jpeg" = .ok frame) :
    (GB.capture_all_from_camera s g cam ri rc rd ro fdm).2 =
      [.cameraFetch cam "image/jpeg",
       .modelCall s.model (GB.classifyRequest s frame)] := by
  unfold GB.capture_all_from_camera GB.get_classifications
  simp only [hdep, hcam]
  cases hg : g s.model (GB.classifyRequest s frame) <;> simp

end GeminiVision

namespace GeminiVision

/-- A stub JPEG frame used by the concrete witnesses. -/
def camBytes : Image := [255, 216, 255, 224, 0, 16]

/-- A camera collaborator that always returns the stub frame. -/
def testCam : Camera := fun _ => .ok camBytes

/-- A model collaborator that always answers with the given text. -/
def okOracle (t : String) : Gemini := fun _ _ => .ok t

/-- A model collaborator that always raises the given message. -/
def errOracle (msg : String) : Gemini := fun _ _ => .error msg

/-- A concrete configured state of variant A, depending on camera `cam1`. -/
def sA0 : GA.VisionState :=
  { api_key := "k", model_id := "gemini-2.0-flash", camera_name := "cam1",
    deps := [("cam1", testCam)], client_api_key := "k" }

/-- A concrete configured state of variant B, depending on camera `cam1`. -/
def sB0 : GB.VisionState :=
  { api_key := "k", camera_name := "cam1", model := "gemini-2.0-flash",
    prompt := "describe", deps := [("cam1", testCam)], client_api_key := "k" }

/-- C1 (as stated) is false on variant A: with all three required keys
present, its `validate_config` returns the empty dependency list, not the
list containing the camera name. -/
theorem claim_C1_counterexample :
    GA.validate_config
        [("model_id", "m"), ("api_key", "k"), ("camera_name", "cam1")] =
      .ok [] ∧
    (Except.ok [] : Except VisionError (List String)) ≠ .ok ["cam1"] :=
  ⟨rfl, by simp⟩

/-- C1 (amended): a map missing a required key makes `validate_config` fail
with a `ConfigError` naming the first missing key of the variant's fixed
key order; a map with every required key succeeds, variant B returning
exactly the one-element list with the camera dependency name and variant A
returning the empty list. -/
theorem claim_C1_validate_config (attrs : Attrs) :
    (∀ k, firstMissing GA.requiredKeys attrs = some k →
      GA.validate_config attrs = .error (.configError k)) ∧
    (∀ k, firstMissing GB.requiredKeys attrs = some k →
      GB.validate_config attrs = .error (.configError k)) ∧
    ((∀ k ∈ GA.requiredKeys, hasKey attrs k = true) →
      GA.validate_config attrs = .ok []) ∧
    (∀ v, (∀ k ∈ GB.requiredKeys, hasKey attrs k = true) →
      getAttr attrs "camera_name" = some v →
      GB.validate_config attrs = .ok [v]) := by
  refine ⟨fun k hk => ?_, fun k hk => ?_, fun h => ?_, fun v h hv => ?_⟩
  · simp [GA.validate_config, hk]
  · simp [GB.validate_config, hk]
  · simp [GA.validate_config, firstMissing_eq_none h]
  · simp [GB.validate_config, firstMissing_eq_none h, hv]

/-- Witness for C1 at concrete maps: a full map on each variant, and maps
missing `model_id` (variant A) and `prompt` (variant B). -/
theorem claim_C1_witness :
    GA.validate_config
        [("model_id", "m"), ("api_key", "k"), ("camera_name", "cam1")] =
      .ok [] ∧
    GB.validate_config
        [("api_key", "k"), ("camera_name", "cam1"), ("model", "m"),
         ("prompt", "p")] =
      .ok ["cam1"] ∧
    GA.validate_config [("api_key", "k"), ("camera_name", "cam1")] =
      .error (.configError "model_id") ∧
    GB.validate_config [("api_key", "k"), ("camera_name", "cam1"),
        ("model", "m")] =
      .error (.configError "prompt") :=
  ⟨(claim_C1_validate_config _).2.2.1 (by decide),
   (claim_C1_validate_config _).2.2.2 "cam1" (by decide) rfl,
   (claim_C1_validate_config _).1 "model_id" rfl,
   (claim_C1_validate_config _).2.1 "prompt" rfl⟩

/-- C2: `get_classifications` ignores the requested count entirely, and on
a successful model call returns exactly one classification whose
confidence is exactly 1.0 and whose label is the stripped response text —
in both variants. -/
theorem claim_C2_get_classifications (sA : GA.VisionState)
    (sB : GB.VisionState) (g : Gemini) (img : Image) (count count' : Nat)
    (t u : String) :
    GA.get_classifications sA g img count =
      GA.get_classifications sA g img count' ∧
    GB.get_classifications sB g img count =
      GB.get_classifications sB g img count' ∧
    (g sA.model_id (GA.classifyRequest img) = .ok t →
      (GA.get_classifications sA g img count).1 =
        .ok [{ label := strip t, confidence := 1 }]) ∧
    (g sB.model (GB.classifyRequest sB img) = .ok u →
      (GB.get_classifications sB g img count).1 =
        .ok [{ label := strip u, confidence := 1 }]) := by
  refine ⟨rfl, rfl, fun h => ?_, fun h => ?_⟩
  · simp [GA.get_classifications, GA.geminiCall, h]
  · simp [GB.get_classifications, h]

/-- Witness for C2 at a concrete oracle answering with padded text, at the
requested counts 0 and 5. -/
theorem claim_C2_witness :
    (GA.get_classifications sA0 (okOracle "  a red ball  ") camBytes 0).1 =
      .ok [{ label := "a red ball", confidence := 1 }] ∧
    (GB.get_classifications sB0 (okOracle "  a red ball  ") camBytes 5).1 =
      .ok [{ label := "a red ball", confidence := 1 }] :=
  ⟨((claim_C2_get_classifications sA0 sB0 (okOracle "  a red ball  ")
      camBytes 0 5 "  a red ball  " "  a red ball  ").2.2.1 rfl).trans rfl,
   ((claim_C2_get_classifications sA0 sB0 (okOracle "  a red ball  ")
      camBytes 5 0 "  a red ball  " "  a red ball  ").2.2.2 rfl).trans rfl⟩

end GeminiVision

namespace GeminiVision

/-- C3 (as stated) is false on variant B: with every return-flag false its
`capture_all_from_camera` still populates the image field (and the
classification list). -/
theorem claim_C3_counterexample :
    (GB.capture_all_from_camera sB0 (okOracle "a red ball") "cam1"
        false false false false false).1 =
      .ok { image := some camBytes,
            classifications :=
              some [{ label := "a red ball", confidence := 1 }],
            detections := none, objects := none } ∧
    (some camBytes : Option Image) ≠ none :=
  ⟨rfl, by simp⟩

/-- C3 (amended): variant A populates the image field iff `return_image`
and the classification field iff `return_classifications` (empty
otherwise), with detections and objects empty in every result; variant B
ignores the flags and always populates both the image and the single
classification, leaving detections and objects unset. -/
theorem claim_C3_capture_flags (sA : GA.VisionState) (sB : GB.VisionState)
    (g : Gemini) (cam : String) (camA camB : Camera)
    (frame frame' : Image) (t u : String) (ri rc rd ro fdm : Bool) :
    (lookupDep sA.deps cam = some camA → camA "image/jpeg" = .ok frame →
      g sA.model_id (GA.classifyRequest frame) = .ok t →
      (GA.capture_all_from_camera sA g cam ri rc rd ro false).1 =
        .ok { image := if ri then some frame else none,
              classifications :=
                some (if rc then [{ label := strip t, confidence := 1 }]
                  else []),
              detections := some [], objects := some [] }) ∧
    (lookupDep sB.deps cam = some camB → camB "image/jpeg" = .ok frame' →
      g sB.model (GB.classifyRequest sB frame') = .ok u →
      (GB.capture_all_from_camera sB g cam ri rc rd ro fdm).1 =
        .ok { image := some frame',
              classifications :=
                some [{ label := strip u, confidence := 1 }],
              detections := none, objects := none }) := by
  constructor
  · intro h1 h2 h3
    rw [GA.capture_okA ri rc rd ro h1 h2 h3]
  · intro h1 h2 h3
    rw [GB.capture_okB ri rc rd ro fdm h1 h2 h3]

/-- Witness for C3: variant A with all flags false yields an empty image
and an empty classification list; with both flags true it yields both;
variant B with all flags false still yields both. -/
theorem claim_C3_witness :
    (GA.capture_all_from_camera sA0 (okOracle "a red ball") "cam1"
        false false false false false).1 =
      .ok { image := none, classifications := some [],
            detections := some [], objects := some [] } ∧
    (GA.capture_all_from_camera sA0 (okOracle "a red ball") "cam1"
        true true false false false).1 =
      .ok { image := some camBytes,
            classifications :=
              some [{ label := "a red ball", confidence := 1 }],
            detections := some [], objects := some [] } ∧
    (GB.capture_all_from_camera sB0 (okOracle "a red ball") "cam1"
        false false false false false).1 =
      .ok { image := some camBytes,
            classifications :=
              some [{ label := "a red ball", confidence := 1 }],
            detections := none, objects := none } :=
  ⟨((claim_C3_capture_flags sA0 sB0 (okOracle "a red ball") "cam1" testCam
      testCam camBytes camBytes "a red ball" "a red ball"
      false false false false false).1 rfl rfl rfl).trans rfl,
   ((claim_C3_capture_flags sA0 sB0 (okOracle "a red ball") "cam1" testCam
      testCam camBytes camBytes "a red ball" "a red ball"
      true true false false false).1 rfl rfl rfl).trans rfl,
   ((claim_C3_capture_flags sA0 sB0 (okOracle "a red ball") "cam1" testCam
      testCam camBytes camBytes "a red ball" "a red ball"
      false false false false false).2 rfl rfl rfl).trans rfl⟩

/-- C4: when the named camera is absent from the injected dependency map,
`capture_all_from_camera` of either variant fails with the
dependency-not-found error and its call trace is empty — zero camera
fetches and zero model calls, so the failure precedes any outbound
call. -/
theorem claim_C4_unknown_camera (sA : GA.VisionState) (sB : GB.VisionState)
    (g : Gemini) (cam : String) (ri rc rd ro fdm : Bool)
    (hA : lookupDep sA.deps cam = none)
    (hB : lookupDep sB.deps cam = none) :
    GA.capture_all_from_camera sA g cam ri rc rd ro fdm =
      (.error (.dependencyNotFound cam), []) ∧
    GB.capture_all_from_camera sB g cam ri rc rd ro fdm =
      (.error (.dependencyNotFound cam), []) := by
  constructor
  · unfold GA.capture_all_from_camera
    simp [hA]
  · unfold GB.capture_all_from_camera
    simp [hB]

/-- Witness for C4 at a camera name the concrete states do not know. -/
theorem claim_C4_witness :
    GA.capture_all_from_camera sA0 (okOracle "a red ball") "ghost"
        true true true true false =
      (.error (.dependencyNotFound "ghost"), []) ∧
    GB.capture_all_from_camera sB0 (okOracle "a red ball") "ghost"
        true true true true false =
      (.error (.dependencyNotFound "ghost"), []) :=
  claim_C4_unknown_camera sA0 sB0 (okOracle "a red ball") "ghost"
    true true true true false rfl rfl

end GeminiVision

namespace GeminiVision

/-- C5: `get_description` of either variant builds exactly one multimodal
request — the image bytes declared `image/jpeg` followed by a text part
containing the prompt — and on success returns the response text with
surrounding whitespace stripped; the call trace is that single model
call. -/
theorem claim_C5_get_description (sA : GA.VisionState)
    (sB : GB.VisionState) (g : Gemini) (img : Image) (prompt t u : String) :
    GA.descriptionRequest img prompt =
      [.content [.image img "image/jpeg"], .content [.text prompt]] ∧
    (g sA.model_id (GA.descriptionRequest img prompt) = .ok t →
      GA.get_description sA g img prompt =
        (.ok (strip t),
         [.modelCall sA.model_id (GA.descriptionRequest img prompt)])) ∧
    (g sB.model (GA.descriptionRequest img prompt) = .ok u →
      GB.get_description sB g img prompt =
        (.ok (strip u),
         [.modelCall sB.model (GA.descriptionRequest img prompt)])) := by
  refine ⟨rfl, fun h => ?_, fun h => ?_⟩
  · simp [GA.get_description, GA.geminiCall, h]
  · simp [GB.get_description, GB.geminiCall, h]

/-- Witness for C5 at a concrete image and prompt with padded response
text. -/
theorem claim_C5_witness :
    GA.get_description sA0 (okOracle " a cat ") camBytes "what is this" =
      (.ok "a cat",
       [.modelCall "gemini-2.0-flash"
          [.content [.image camBytes "image/jpeg"],
           .content [.text "what is this"]]]) ∧
    GB.get_description sB0 (okOracle " a cat ") camBytes "what is this" =
      (.ok "a cat",
       [.modelCall "gemini-2.0-flash"
          [.content [.image camBytes "image/jpeg"],
           .content [.text "what is this"]]]) :=
  ⟨((claim_C5_get_description sA0 sB0 (okOracle " a cat ") camBytes
      "what is this" " a cat " " a cat ").2.1 rfl).trans rfl,
   ((claim_C5_get_description sA0 sB0 (okOracle " a cat ") camBytes
      "what is this" " a cat " " a cat ").2.2 rfl).trans rfl⟩

/-- C6: when the model client raises, `_gemini` of either variant
re-raises the very same error to its caller after issuing exactly one
outbound call — no retry, no substituted result. -/
theorem claim_C6_error_propagation (sA : GA.VisionState)
    (sB : GB.VisionState) (g : Gemini) (req : Request) (e : String) :
    (g sA.model_id req = .error e →
      GA.geminiCall sA g req =
        (.error (.modelCallError e), [.modelCall sA.model_id req])) ∧
    (g sB.model req = .error e →
      GB.geminiCall sB g req =
        (.error (.modelCallError e), [.modelCall sB.model req])) := by
  refine ⟨fun h => ?_, fun h => ?_⟩
  · simp [GA.geminiCall, h]
  · simp [GB.geminiCall, h]

/-- Witness for C6 at a concrete failing model client. -/
theorem claim_C6_witness :
    GA.geminiCall sA0 (errOracle "quota exceeded")
        (GA.classifyRequest camBytes) =
      (.error (.modelCallError "quota exceeded"),
       [.modelCall "gemini-2.0-flash" (GA.classifyRequest camBytes)]) ∧
    GB.geminiCall sB0 (errOracle "quota exceeded")
        (GA.descriptionRequest camBytes "p") =
      (.error (.modelCallError "quota exceeded"),
       [.modelCall "gemini-2.0-flash"
          (GA.descriptionRequest camBytes "p")]) :=
  ⟨(claim_C6_error_propagation sA0 sB0 (errOracle "quota exceeded")
      (GA.classifyRequest camBytes) "quota exceeded").1 rfl,
   (claim_C6_error_propagation sA0 sB0 (errOracle "quota exceeded")
      (GA.descriptionRequest camBytes "p") "quota exceeded").2 rfl⟩

end GeminiVision

namespace GeminiVision

/-- C7: `reconfigure` replaces the configuration wholesale.  For either
variant, reconfiguring again after a first configuration yields a state
identical to reconfiguring from any other prior state, and every field of
the resulting state comes from the second configuration alone. -/
theorem claim_C7_reconfigure_replaces (s s' : Option GA.VisionState)
    (r r' : Option GB.VisionState) (a1 a2 : Attrs) (d1 d2 : Deps)
    (tA : GA.VisionState) (tB : GB.VisionState) :
    (GA.reconfigure s a1 d1 = some tA →
      GA.reconfigure (some tA) a2 d2 = GA.reconfigure s' a2 d2 ∧
      ∀ a m c, getAttr a2 "api_key" = some a →
        getAttr a2 "model_id" = some m →
        getAttr a2 "camera_name" = some c →
        GA.reconfigure (some tA) a2 d2 =
          some { api_key := a, model_id := m, camera_name := c,
                 deps := d2, client_api_key := a }) ∧
    (GB.reconfigure r a1 d1 = some tB →
      GB.reconfigure (some tB) a2 d2 = GB.reconfigure r' a2 d2 ∧
      ∀ a c m p, getAttr a2 "api_key" = some a →
        getAttr a2 "camera_name" = some c →
        getAttr a2 "model" = some m →
        getAttr a2 "prompt" = some p →
        GB.reconfigure (some tB) a2 d2 =
          some { api_key := a, camera_name := c, model := m, prompt := p,
                 deps := d2, client_api_key := a }) := by
  refine ⟨fun _ => ⟨rfl, fun a m c ha hm hc => ?_⟩,
          fun _ => ⟨rfl, fun a c m p ha hc hm hp => ?_⟩⟩
  · simp [GA.reconfigure, ha, hm, hc]
  · simp [GB.reconfigure, ha, hc, hm, hp]

/-- Witness for C7: two concrete configurations applied in sequence on
each variant; the final state holds only the second one's fields. -/
theorem claim_C7_witness :
    GA.reconfigure
        (GA.reconfigure none
          [("api_key", "k1"), ("model_id", "m1"), ("camera_name", "c1")] [])
        [("api_key", "k2"), ("model_id", "m2"), ("camera_name", "c2")] [] =
      some { api_key := "k2", model_id := "m2", camera_name := "c2",
             deps := [], client_api_key := "k2" } ∧
    GB.reconfigure
        (GB.reconfigure none
          [("api_key", "k1"), ("camera_name", "c1"), ("model", "m1"),
           ("prompt", "p1")] [])
        [("api_key", "k2"), ("camera_name", "c2"), ("model", "m2"),
         ("prompt", "p2")] [] =
      some { api_key := "k2", camera_name := "c2", model := "m2",
             prompt := "p2", deps := [], client_api_key := "k2" } :=
  ⟨((claim_C7_reconfigure_replaces none none none none
      [("api_key", "k1"), ("model_id", "m1"), ("camera_name", "c1")]
      [("api_key", "k2"), ("model_id", "m2"), ("camera_name", "c2")] [] []
      { api_key := "k1", model_id := "m1", camera_name := "c1",
        deps := [], client_api_key := "k1" }
      { api_key := "k1", camera_name := "c1", model := "m1",
        prompt := "p1", deps := [], client_api_key := "k1" }).1 rfl).2
      "k2" "m2" "c2" rfl rfl rfl,
   ((claim_C7_reconfigure_replaces none none none none
      [("api_key", "k1"), ("camera_name", "c1"), ("model", "m1"),
       ("prompt", "p1")]
      [("api_key", "k2"), ("camera_name", "c2"), ("model", "m2"),
       ("prompt", "p2")] [] []
      { api_key := "k1", model_id := "m1", camera_name := "c1",
        deps := [], client_api_key := "k1" }
      { api_key := "k1", camera_name := "c1", model := "m1",
        prompt := "p1", deps := [], client_api_key := "k1" }).2 rfl).2
      "k2" "c2" "m2" "p2" rfl rfl rfl rfl⟩

end GeminiVision

namespace GeminiVision

/-- C8: in the variant with data-manager gating (variant A), whenever the
extra metadata marks the capture as a data-manager capture and no
classification in the result has a non-empty label,
`capture_all_from_camera` fails with the no-capture-to-store error; and
whenever the metadata does not mark a data-manager capture, that error is
never raised, whatever the collaborators do. -/
theorem claim_C8_dm_gating (s : GA.VisionState) (g : Gemini)
    (cam : String) (camf : Camera) (frame : Image) (t : String)
    (ri rc rd ro : Bool) :
    (lookupDep s.deps cam = some camf → camf "image/jpeg" = .ok frame →
      g s.model_id (GA.classifyRequest frame) = .ok t →
      ((if rc then [{ label := strip t, confidence := 1 }]
          else [] : List Classification).any (fun c => c.label ≠ "")
        = false) →
      (GA.capture_all_from_camera s g cam ri rc rd ro true).1 =
        .error .noCaptureToStore) ∧
    (GA.capture_all_from_camera s g cam ri rc rd ro false).1 ≠
      .error .noCaptureToStore := by
  constructor
  · intro h1 h2 h3 hall
    unfold GA.capture_all_from_camera GA.get_classifications GA.geminiCall
    simp only [h1, h2, h3]
    have hcond : ¬ ((if rc then [{ label := strip t, confidence := 1 }]
        else [] : List Classification).any (fun c => c.label ≠ "")) = true := by
      simp only [hall]
      simp
    rw [if_pos ⟨trivial, hcond⟩]
  · unfold GA.capture_all_from_camera GA.get_classifications GA.geminiCall
    cases h1 : lookupDep s.deps cam with
    | none => simp [h1]
    | some camf =>
      cases h2 : camf "image/jpeg" with
      | error e => simp [h1, h2]
      | ok frame =>
        cases h3 : g s.model_id (GA.classifyRequest frame) with
        | error e => simp [h1, h2, h3]
        | ok t => simp [h1, h2, h3]

/-- Witness for C8: a data-manager capture whose only classification label
strips to the empty string is rejected with the no-capture-to-store
error, while the same call without the data-manager mark succeeds. -/
theorem claim_C8_witness :
    (GA.capture_all_from_camera sA0 (okOracle "   ") "cam1"
        true true false false true).1 = .error .noCaptureToStore ∧
    (GA.capture_all_from_camera sA0 (okOracle "   ") "cam1"
        true true false false false).1 ≠ .error .noCaptureToStore :=
  ⟨(claim_C8_dm_gating sA0 (okOracle "   ") "cam1" testCam camBytes "   "
      true true false false).1 rfl rfl rfl (by decide),
   (claim_C8_dm_gating sA0 (okOracle "   ") "cam1" testCam camBytes "   "
      true true false false).2⟩

/-- C10: in variant A, a data-manager capture requested with
`return_classifications=False` always fails with the no-capture-to-store
error regardless of the model's answer, because the classification list
is cleared before the non-empty-label check runs. -/
theorem claim_C10_dm_cleared_list (s : GA.VisionState) (g : Gemini)
    (cam : String) (camf : Camera) (frame : Image) (t : String)
    (ri rd ro : Bool)
    (h1 : lookupDep s.deps cam = some camf)
    (h2 : camf "image/jpeg" = .ok frame)
    (h3 : g s.model_id (GA.classifyRequest frame) = .ok t) :
    (GA.capture_all_from_camera s g cam ri false rd ro true).1 =
      .error .noCaptureToStore := by
  unfold GA.capture_all_from_camera GA.get_classifications GA.geminiCall
  simp only [h1, h2, h3]
  simp

/-- Witness for C10: the model answers with a non-empty description, yet
the data-manager capture with `return_classifications=False` is still
rejected. -/
theorem claim_C10_witness :
    (GA.capture_all_from_camera sA0 (okOracle "a red ball") "cam1"
        true false false false true).1 = .error .noCaptureToStore :=
  claim_C10_dm_cleared_list sA0 (okOracle "a red ball") "cam1" testCam
    camBytes "a red ball" true false false rfl rfl rfl

end GeminiVision

namespace GeminiVision

/-- A trace of one camera fetch then one model call counts one model
request. -/
theorem modelCalls_fetch_call (cam mime m : String) (req : Request) :
    modelCalls [.cameraFetch cam mime, .modelCall m req] = 1 := rfl

/-- A trace of a single model call counts one model request. -/
theorem modelCalls_single (m : String) (req : Request) :
    modelCalls [.modelCall m req] = 1 := rfl

/-- C9 (as stated) is false: `get_description_from_camera` of either
variant issues two outbound model requests — the classification call made
inside the internal `capture_all_from_camera`, then the description
call. -/
theorem claim_C9_counterexample :
    modelCalls (GA.get_description_from_camera sA0 (okOracle "a red ball")
        "cam1" "what").2 = 2 ∧
    modelCalls (GB.get_description_from_camera sB0 (okOracle "a red ball")
        "cam1" "what").2 = 2 ∧
    (2 : Nat) ≠ 1 :=
  ⟨rfl, rfl, by decide⟩

/-- C9 (amended): `get_classifications` and `get_description` issue
exactly one outbound model request; `capture_all_from_camera` and
`get_classifications_from_camera` issue exactly one once the camera frame
is obtained; `get_description_from_camera` issues exactly two (the
classification inside the internal capture plus the description call). -/
theorem claim_C9_one_model_call (sA : GA.VisionState) (sB : GB.VisionState)
    (g : Gemini) (img : Image) (count : Nat) (prompt cam : String)
    (camA camB : Camera) (frame frame' : Image) (t u : String)
    (ri rc rd ro fdm : Bool) :
    modelCalls (GA.get_classifications sA g img count).2 = 1 ∧
    modelCalls (GB.get_classifications sB g img count).2 = 1 ∧
    modelCalls (GA.get_description sA g img prompt).2 = 1 ∧
    modelCalls (GB.get_description sB g img prompt).2 = 1 ∧
    (lookupDep sA.deps cam = some camA → camA "image/jpeg" = .ok frame →
      modelCalls
          (GA.capture_all_from_camera sA g cam ri rc rd ro fdm).2 = 1 ∧
      modelCalls (GA.get_classifications_from_camera sA g cam count).2 = 1 ∧
      (g sA.model_id (GA.classifyRequest frame) = .ok t →
        modelCalls (GA.get_description_from_camera sA g cam prompt).2 = 2)) ∧
    (lookupDep sB.deps cam = some camB → camB "image/jpeg" = .ok frame' →
      modelCalls
          (GB.capture_all_from_camera sB g cam ri rc rd ro fdm).2 = 1 ∧
      modelCalls (GB.get_classifications_from_camera sB g cam count).2 = 1 ∧
      (g sB.model (GB.classifyRequest sB frame') = .ok u →
        modelCalls (GB.get_description_from_camera sB g cam prompt).2 = 2)) := by
  refine ⟨?_, ?_, ?_, ?_, fun hdep hcam => ⟨?_, ?_, fun hg => ?_⟩,
          fun hdep hcam => ⟨?_, ?_, fun hg => ?_⟩⟩
  · unfold GA.get_classifications GA.geminiCall
    cases g sA.model_id (GA.classifyRequest img) <;> rfl
  · unfold GB.get_classifications
    cases g sB.model (GB.classifyRequest sB img) <;> rfl
  · unfold GA.get_description GA.geminiCall
    cases g sA.model_id (GA.descriptionRequest img prompt) <;> rfl
  · unfold GB.get_description GB.geminiCall
    cases g sB.model (GA.descriptionRequest img prompt) <;> rfl
  · rw [GA.capture_traceA ri rc rd ro fdm hdep hcam]
    exact modelCalls_fetch_call _ _ _ _
  · unfold GA.get_classifications_from_camera
    have htr := GA.capture_traceA (g := g) true true false false false
      hdep hcam
    rcases hc : GA.capture_all_from_camera sA g cam true true false false
      false with ⟨r, tr⟩
    rw [hc] at htr
    have htr2 : tr = [CallEvent.cameraFetch cam "image/jpeg",
        CallEvent.modelCall sA.model_id (GA.classifyRequest frame)] := htr
    cases r <;> simp [htr2, modelCalls_fetch_call]
  · unfold GA.get_description_from_camera
    rw [GA.capture_okA true false false false hdep hcam hg]
    show modelCalls ([CallEvent.cameraFetch cam "image/jpeg",
        CallEvent.modelCall sA.model_id (GA.classifyRequest frame)] ++
        (GA.get_description sA g frame prompt).2) = 2
    unfold GA.get_description GA.geminiCall
    cases g sA.model_id (GA.descriptionRequest frame prompt) <;> rfl
  · rw [GB.capture_traceB ri rc rd ro fdm hdep hcam]
    exact modelCalls_fetch_call _ _ _ _
  · unfold GB.get_classifications_from_camera
    have htr := GB.capture_traceB (g := g) true true false false false
      hdep hcam
    rcases hc : GB.capture_all_from_camera sB g cam true true false false
      false with ⟨r, tr⟩
    rw [hc] at htr
    have htr2 : tr = [CallEvent.cameraFetch cam "image/jpeg",
        CallEvent.modelCall sB.model (GB.classifyRequest sB frame')] := htr
    cases r <;> simp [htr2, modelCalls_fetch_call]
  · unfold GB.get_description_from_camera
    rw [GB.capture_okB true false false false false hdep hcam hg]
    show modelCalls ([CallEvent.cameraFetch cam "image/jpeg",
        CallEvent.modelCall sB.model (GB.classifyRequest sB frame')] ++
        (GB.get_description sB g frame' prompt).2) = 2
    unfold GB.get_description GB.geminiCall
    cases g sB.model (GA.descriptionRequest frame' prompt) <;> rfl

/-- Witness for C9 at the concrete fixtures: one model call for each
single-shot entry point and the capture entry points, two for
`get_description_from_camera`. -/
theorem claim_C9_witness :
    modelCalls (GA.get_classifications sA0 (okOracle "x") camBytes 3).2
      = 1 ∧
    modelCalls (GA.capture_all_from_camera sA0 (okOracle "x") "cam1"
        true true false false false).2 = 1 ∧
    modelCalls (GA.get_description_from_camera sA0 (okOracle "x")
        "cam1" "what").2 = 2 :=
  ⟨(claim_C9_one_model_call sA0 sB0 (okOracle "x") camBytes 3 "what"
      "cam1" testCam testCam camBytes camBytes "x" "x"
      true true false false false).1,
   ((claim_C9_one_model_call sA0 sB0 (okOracle "x") camBytes 3 "what"
      "cam1" testCam testCam camBytes camBytes "x" "x"
      true true false false false).2.2.2.2.1 rfl rfl).1,
   ((claim_C9_one_model_call sA0 sB0 (okOracle "x") camBytes 3 "what"
      "cam1" testCam testCam camBytes camBytes "x" "x"
      true true false false false).2.2.2.2.1 rfl rfl).2.2 rfl⟩

end GeminiVision
